import Mathlib

/-!
Verification development for the MLOps image-classification pipeline
(`src/model.py`, `src/preprocessing.py`, `src/prediction.py`, `app/app.py`).

The Python code is shallowly embedded: pure fragments become Lean functions on
`List`/`ℚ`/`ℝ`, exceptions become `Except`, the process-wide mutable state of the
retraining job becomes explicit state passing, and the file system becomes an
association list from paths to file contents.  External collaborators (the
deep-learning framework's forward pass, PIL/Keras image decoding and resizing,
`json`) are modelled by their documented input/output contracts; every line of
repository logic (argmax/confidence extraction, dictionary formatting, sorting,
try/except shapes, path arithmetic, statistics aggregation) is translated
directly from the source.
-/

namespace MLOps

/-! ## Error taxonomy

The repository signals failures with Python exception values.  `RepoError`
gives each distinct raise site its own constructor:
`invalidImage` is the `ValueError` raised by `preprocessing.py:137/176`,
`modelFileNotFound` the `FileNotFoundError` of `model.py:407`,
`modelLoad` the re-raised deserialization failure of `model.py:425-427`,
`notInitialized` the `ValueError("Model not created or loaded.")` of
`model.py:333`, and `keyError` a Python `KeyError` from a dictionary lookup
such as `self.index_to_class[predicted_idx]` (`prediction.py:76`). -/
inductive RepoError where
  | invalidImage (msg : String)
  | modelFileNotFound (msg : String)
  | modelLoad (msg : String)
  | notInitialized (msg : String)
  | keyError (key : Nat)
deriving DecidableEq

/-- Python's `str(e)` on an exception value: the carried message. -/
def RepoError.message : RepoError → String
  | .invalidImage m => m
  | .modelFileNotFound m => m
  | .modelLoad m => m
  | .notInitialized m => m
  | .keyError k => Nat.repr k

/-- Boolean success test for an `Except` value (did the wrapped Python code
run to completion without raising?). -/
def exceptOk : Except ε α → Bool
  | .ok _ => true
  | .error _ => false

/-- Total extractor for an `Except` value with a default. -/
def exceptGetD (x : Except ε α) (d : α) : α :=
  match x with
  | .ok a => a
  | .error _ => d

instance [DecidableEq ε] [DecidableEq α] : DecidableEq (Except ε α) := fun x y =>
  match x, y with
  | .ok a, .ok b => if h : a = b then isTrue (by rw [h]) else isFalse (by simp [h])
  | .error a, .error b => if h : a = b then isTrue (by rw [h]) else isFalse (by simp [h])
  | .ok _, .error _ => isFalse (by simp)
  | .error _, .ok _ => isFalse (by simp)

/-! ## model.py : ImageClassifier -/

/-- The configuration state of `ImageClassifier` (`model.py:28-45`): the three
metadata fields written to and restored from the metadata sidecar.  The
default values are the constructor defaults (`learning_rate = 0.0001`). -/
structure ImageClassifier where
  img_size : Nat × Nat := (224, 224)
  num_classes : Nat := 2
  learning_rate : ℚ := 1 / 10000
deriving DecidableEq

/-- Embeds `np.argmax` on a one-dimensional array: the index of the first occurrence
of the maximum value (`0` on an empty array is never used by the code, which
only applies it to softmax outputs of length `num_classes ≥ 1`). -/
def npArgmax [LinearOrder α] : List α → Nat
  | [] => 0
  | x :: xs => if xs.all fun y => decide (y ≤ x) then 0 else npArgmax xs + 1

/-- The triple returned by `ImageClassifier.predict` (`model.py:322-341`). -/
structure PredictOutput (α : Type) where
  predicted_class : Nat
  confidence : α
  probabilities : List (Nat × α)
deriving DecidableEq

/-- Embeds `ImageClassifier.predict` (`model.py:335-341`) applied to the model's
output row `predictions[0]`:
`predicted_class = np.argmax(predictions[0])`,
`confidence = predictions[0][predicted_class]`, and
`probabilities = {i: prob for i, prob in enumerate(predictions[0])}`,
whose insertion order is index order `0, 1, …`. -/
def ImageClassifier.predict [LinearOrder α] [Zero α] (preds : List α) :
    PredictOutput α :=
  { predicted_class := npArgmax preds
    confidence := preds.getD (npArgmax preds) 0
    probabilities := preds.enum }

/-- The network head ends in `layers.Dense(num_classes, activation='softmax')`
(`model.py:82`), so the row `predictions[0]` consumed by `predict` is the
softmax of the final layer's logits.  Real-valued idealization of the
framework's floating-point softmax. -/
noncomputable def softmax (logits : List ℝ) : List ℝ :=
  logits.map fun x => Real.exp x / (logits.map Real.exp).sum

/-! ## Model persistence (`model.py:358-437`)

`save_model` writes the serialized network to `filepath` and, with
`include_metadata=True` (the default), dumps the metadata JSON to
`filepath.replace('.h5', '_metadata.json')`.  `load_model` deserializes
`filepath` (raising `FileNotFoundError` when absent and re-raising on a
corrupt artifact) and then restores the three metadata fields from
`filepath.replace('.h5', '_metadata.json').replace('.keras', '_metadata.json')`
when that file exists.  The file system is an association list whose most
recent write shadows earlier ones. -/

/-- One step of Python's `str.replace`: scan left to right, replacing each
(non-overlapping) occurrence of `pat`.  Fuel-based structural recursion; each
step consumes at least one character, so `fuel = s.length` suffices. -/
def pyReplaceAux (pat rep : List Char) : Nat → List Char → List Char
  | _, [] => []
  | 0, s => s
  | fuel + 1, c :: rest =>
    if pat.isPrefixOf (c :: rest) then
      rep ++ pyReplaceAux pat rep fuel (rest.drop (pat.length - 1))
    else
      c :: pyReplaceAux pat rep fuel rest

/-- Python's `s.replace(pat, rep)` for a non-empty pattern. -/
def pyReplace (s pat rep : String) : String :=
  ⟨pyReplaceAux pat.data rep.data s.data.length s.data⟩

/-- The sidecar path computed by `save_model` (`model.py:393`):
`filepath.replace('.h5', '_metadata.json')`. -/
def metadataSavePath (filepath : String) : String :=
  pyReplace filepath ".h5" "_metadata.json"

/-- The sidecar path computed by `load_model` (`model.py:430`):
`filepath.replace('.h5', '_metadata.json').replace('.keras', '_metadata.json')`. -/
def metadataLoadPath (filepath : String) : String :=
  pyReplace (pyReplace filepath ".h5" "_metadata.json") ".keras" "_metadata.json"

/-- Contents of a file written by the persistence layer: either a serialized
Keras model (whose architecture encodes the classifier's metadata) or the
metadata sidecar JSON. -/
inductive FileContent where
  | modelArtifact (img_size : Nat × Nat) (num_classes : Nat) (learning_rate : ℚ)
  | jsonMeta (img_size : Nat × Nat) (num_classes : Nat) (learning_rate : ℚ)
deriving DecidableEq

/-- A file system as an association list; `fsWrite` shadows earlier writes,
`List.lookup` reads the most recent one. -/
def fsWrite (fs : List (String × FileContent)) (p : String) (c : FileContent) :
    List (String × FileContent) :=
  (p, c) :: fs

/-- Embeds `ImageClassifier.save_model` (`model.py:358-397`) with a model present,
default `save_format='h5'` and `include_metadata=True`: write the model to
`filepath`, then write the metadata JSON to `metadataSavePath filepath`.
When the two paths coincide (any `filepath` not containing `'.h5'`, e.g.
`'model.keras'`), the second write clobbers the model artifact. -/
def ImageClassifier.save_model (cls : ImageClassifier)
    (fs : List (String × FileContent)) (filepath : String) :
    List (String × FileContent) :=
  fsWrite (fsWrite fs filepath
      (.modelArtifact cls.img_size cls.num_classes cls.learning_rate))
    (metadataSavePath filepath)
    (.jsonMeta cls.img_size cls.num_classes cls.learning_rate)

/-- Embeds `ImageClassifier.load_model` (`model.py:399-437`): raise
`FileNotFoundError` if `filepath` is absent; fail (re-raise) if its content
does not deserialize as a model; then, when the sidecar at
`metadataLoadPath filepath` exists and parses, overwrite `img_size`,
`num_classes` and `learning_rate` from it (the sidecar always carries all
three keys, so the `.get` defaults never apply). -/
def ImageClassifier.load_model (cls : ImageClassifier)
    (fs : List (String × FileContent)) (filepath : String) :
    Except RepoError ImageClassifier :=
  match fs.lookup filepath with
  | none => .error (.modelFileNotFound ("Model file not found: " ++ filepath))
  | some (.jsonMeta _ _ _) => .error (.modelLoad "Error loading model")
  | some (.modelArtifact _ _ _) =>
    match fs.lookup (metadataLoadPath filepath) with
    | some (.jsonMeta sz n lr) =>
      .ok { img_size := sz, num_classes := n, learning_rate := lr }
    | _ => .ok cls

/-! ## preprocessing.py : ImagePreprocessor -/

/-- A decoded PIL image: a color mode string and a row-major pixel grid, each
pixel a list of channel byte values. -/
structure PILImage where
  mode : String
  pixels : List (List (List Nat))
deriving DecidableEq

/-- Well-formedness of a decoded image: channel values are bytes, and an image
whose `mode` is `"RGB"` has exactly three channels per pixel (PIL's
invariant for that mode). -/
def PILImage.wf (img : PILImage) : Prop :=
  ∀ row ∈ img.pixels, ∀ px ∈ row,
    (∀ v ∈ px, v < 256) ∧ (img.mode = "RGB" → px.length = 3)

instance (img : PILImage) : Decidable img.wf := by
  unfold PILImage.wf
  infer_instance

/-- Conversion of one pixel to RGB, as performed by PIL `convert('RGB')` /
Keras `load_img` with the default `color_mode='rgb'`: a single-channel (`L`)
or two-channel (`LA`) pixel replicates its luminance, three or more channels
keep the first three (alpha dropped). -/
def toRGB : List Nat → List Nat
  | [] => [0, 0, 0]
  | [l] => [l, l, l]
  | [l, _] => [l, l, l]
  | r :: g :: b :: _ => [r, g, b]

/-- Whole-grid color-mode coercion to three channels. -/
def convertRGB (pixels : List (List (List Nat))) : List (List (List Nat)) :=
  pixels.map fun row => row.map toRGB

/-- Nearest-neighbour resize of a pixel grid to `rows × cols` — the fixed
interpolation policy (Keras `load_img` defaults to `interpolation='nearest'`;
any PIL resampling of a byte image likewise yields byte pixels, which is all
the proofs use).  Out-of-range reads (only possible on a degenerate empty
source) yield a black pixel. -/
def resizeGrid (grid : List (List (List Nat))) (rows cols : Nat) :
    List (List (List Nat)) :=
  (List.range rows).map fun i =>
    let row := grid.getD (i * grid.length / rows) []
    (List.range cols).map fun j => row.getD (j * row.length / cols) [0, 0, 0]

/-- Keras `img_to_array`: the pixel grid as a float array (here `ℚ`). -/
def imgToArray (grid : List (List (List Nat))) : List (List (List ℚ)) :=
  grid.map fun row => row.map fun px => px.map fun v : Nat => (v : ℚ)

/-- The `img_array / 255.0` normalization step
(`preprocessing.py:129`/`168`). -/
def rescale (arr : List (List (List ℚ))) : List (List (List ℚ)) :=
  arr.map fun row => row.map fun px => px.map fun v => v / 255

/-- The preprocessor state (`preprocessing.py:23-30`): the target size
`(height, width)`. -/
structure ImagePreprocessor where
  img_size : Nat × Nat := (224, 224)
deriving DecidableEq

/-- Embeds `ImagePreprocessor.preprocess_single_image` (`preprocessing.py:107-137`)
with `normalize=True`.  `loadResult` is the outcome of the external
`load_img(image_path, target_size=self.img_size)`, which decodes the file
(possibly failing), converts to RGB and resizes to
`(height, width) = img_size`;  `img_to_array`, `/ 255.0` and
`np.expand_dims(·, axis=0)` follow.  Any exception in the `try` block is
re-raised as `ValueError(f"Error preprocessing image {image_path}: {e}")`. -/
def preprocess_single_image (pre : ImagePreprocessor)
    (loadResult : Except String PILImage) (image_path : String) :
    Except RepoError (List (List (List (List ℚ)))) :=
  match loadResult with
  | .error e =>
    .error (.invalidImage ("Error preprocessing image " ++ image_path ++ ": " ++ e))
  | .ok img =>
    .ok [rescale (imgToArray
      (resizeGrid (convertRGB img.pixels) pre.img_size.1 pre.img_size.2))]

/-- Embeds `ImagePreprocessor.preprocess_uploaded_image` (`preprocessing.py:139-176`)
with `normalize=True`.  `openResult` is the outcome of `Image.open`; the code
then converts to RGB only when `img.mode != 'RGB'` and calls
`img.resize(self.img_size)`.  PIL's `resize` takes `(width, height)`, so
passing `img_size = (height, width)` produces a grid of
`img_size.2` rows × `img_size.1` columns.  Any exception is re-raised as
`ValueError(f"Error preprocessing uploaded image: {e}")`. -/
def preprocess_uploaded_image (pre : ImagePreprocessor)
    (openResult : Except String PILImage) :
    Except RepoError (List (List (List (List ℚ)))) :=
  match openResult with
  | .error e =>
    .error (.invalidImage ("Error preprocessing uploaded image: " ++ e))
  | .ok img =>
    let g := if img.mode = "RGB" then img.pixels else convertRGB img.pixels
    .ok [rescale (imgToArray (resizeGrid g pre.img_size.2 pre.img_size.1))]

/-- Shape predicate for the batched output array:
`n` images of `h` rows × `w` columns × `c` channels. -/
def tensorShape4 (t : List (List (List (List ℚ)))) (n h w c : Nat) : Prop :=
  t.length = n ∧ ∀ im ∈ t, im.length = h ∧
    ∀ row ∈ im, row.length = w ∧ ∀ px ∈ row, px.length = c

instance (t : List (List (List (List ℚ)))) (n h w c : Nat) :
    Decidable (tensorShape4 t n h w c) := by
  unfold tensorShape4
  infer_instance

/-- All values of the batched output array lie in `[0, 1]`. -/
def tensorValuesIn01 (t : List (List (List (List ℚ)))) : Prop :=
  ∀ im ∈ t, ∀ row ∈ im, ∀ px ∈ row, ∀ v ∈ px, 0 ≤ v ∧ v ≤ 1

instance (t : List (List (List (List ℚ)))) : Decidable (tensorValuesIn01 t) := by
  unfold tensorValuesIn01
  infer_instance

/-! ## prediction.py : PredictionService -/

/-- The loaded Keras model as seen by the service: a total function from the
preprocessed input array to the output row `predictions[0]` (the softmax
probabilities, rational-valued here). -/
def KerasModel : Type :=
  List (List (List (List ℚ))) → List ℚ

/-- The service state the claims depend on: the reverse mapping
`index_to_class` built at `prediction.py:48`. -/
structure PredictionService where
  index_to_class : List (Nat × String)

/-- An uploaded file object; `getattr(image_file, 'filename', 'unknown')`
motivates the optional filename. -/
structure UploadedFile where
  filename : Option String

/-- The dictionaries returned by `predict_image` / `predict_uploaded_image`
(`prediction.py:74-95` and `115-136`): the success record carries class,
index, confidence and the formatted probability map, the failure record only
`error`; both carry the source identifier and the timestamp. -/
structure PredictionRecord where
  success : Bool
  predicted_class : Option String := none
  predicted_index : Option Nat := none
  confidence : Option ℚ := none
  probabilities : List (String × ℚ) := []
  error : Option String := none
  image_path : Option String := none
  filename : Option String := none
  timestamp : String
deriving DecidableEq

/-- Embeds `self.index_to_class[idx]`: a Python dict lookup, raising `KeyError` when
the index is absent. -/
def lookupClass (svc : PredictionService) (idx : Nat) : Except RepoError String :=
  match svc.index_to_class.lookup idx with
  | some name => .ok name
  | none => .error (.keyError idx)

/-- The probability-formatting comprehension
`{self.index_to_class[idx]: float(prob) for idx, prob in probabilities.items()}`
(`prediction.py:79-82`), which looks every index up and hence can raise
`KeyError`. -/
def formatProbs (svc : PredictionService) :
    List (Nat × ℚ) → Except RepoError (List (String × ℚ))
  | [] => .ok []
  | (i, p) :: rest => do
    let n ← lookupClass svc i
    let tail ← formatProbs svc rest
    .ok ((n, p) :: tail)

/-- Embeds `self.classifier.predict(img_array)` (`model.py:322-341`): raises
`ValueError("Model not created or loaded.")` when no model is loaded,
otherwise runs the forward pass and the argmax/enumerate postprocessing. -/
def classifierPredictChecked (model : Option KerasModel)
    (arr : List (List (List (List ℚ)))) : Except RepoError (PredictOutput ℚ) :=
  match model with
  | none => .error (.notInitialized "Model not created or loaded.")
  | some f => .ok (ImageClassifier.predict (f arr))

/-- The `try` body shared by `predict_image` and `predict_uploaded_image`
(`prediction.py:66-87` / `107-128`): preprocess, predict, then format the
class name and probability map; any step may raise. -/
def tryPredictResult (svc : PredictionService) (model : Option KerasModel)
    (arr : Except RepoError (List (List (List (List ℚ))))) :
    Except RepoError (String × Nat × ℚ × List (String × ℚ)) := do
  let a ← arr
  let out ← classifierPredictChecked model a
  let name ← lookupClass svc out.predicted_class
  let probs ← formatProbs svc out.probabilities
  .ok (name, out.predicted_class, out.confidence, probs)

/-- Embeds `PredictionService.predict_image` (`prediction.py:56-95`).  `loadEnv`
supplies, per path, the outcome of the external image decode; `ts` is
`datetime.now().isoformat()`.  The `except Exception` clause converts any
failure into a `success=False` record carrying `error = str(e)` and the same
`image_path`/`timestamp` keys as the success record. -/
def PredictionService.predict_image (svc : PredictionService)
    (pre : ImagePreprocessor) (model : Option KerasModel)
    (loadEnv : String → Except String PILImage) (image_path ts : String) :
    PredictionRecord :=
  match tryPredictResult svc model
      (preprocess_single_image pre (loadEnv image_path) image_path) with
  | .ok (name, idx, conf, probs) =>
    { success := true, predicted_class := some name, predicted_index := some idx
      confidence := some conf, probabilities := probs
      image_path := some image_path, timestamp := ts }
  | .error e =>
    { success := false, error := some e.message
      image_path := some image_path, timestamp := ts }

/-- Embeds `PredictionService.predict_uploaded_image` (`prediction.py:97-136`):
identical shape, with `filename = getattr(image_file, 'filename', 'unknown')`
as the source identifier. -/
def PredictionService.predict_uploaded_image (svc : PredictionService)
    (pre : ImagePreprocessor) (model : Option KerasModel)
    (file : UploadedFile) (openResult : Except String PILImage) (ts : String) :
    PredictionRecord :=
  match tryPredictResult svc model (preprocess_uploaded_image pre openResult) with
  | .ok (name, idx, conf, probs) =>
    { success := true, predicted_class := some name, predicted_index := some idx
      confidence := some conf, probabilities := probs
      filename := some (file.filename.getD "unknown"), timestamp := ts }
  | .error e =>
    { success := false, error := some e.message
      filename := some (file.filename.getD "unknown"), timestamp := ts }

/-- Embeds `PredictionService.predict_batch` (`prediction.py:138-154`): a plain loop
appending `predict_image(path)` for each path, in order. -/
def PredictionService.predict_batch (svc : PredictionService)
    (pre : ImagePreprocessor) (model : Option KerasModel)
    (loadEnv : String → Except String PILImage) (ts : String)
    (image_paths : List String) : List PredictionRecord :=
  image_paths.map fun p => svc.predict_image pre model loadEnv p ts

/-- The comparison realized by `key=lambda x: x[1], reverse=True`
(`prediction.py:177-179`): entry `a` may precede entry `b` when its
probability is at least `b`'s. -/
def probDescLE (a b : Nat × ℚ) : Bool := decide (b.2 ≤ a.2)

/-- The core of `PredictionService.get_top_k_predictions`
(`prediction.py:169-188`) on the success path, at the class-index level:
`sorted(probabilities.items(), key=lambda x: x[1], reverse=True)[:k]`.
Python's `sorted` is a stable sort and `reverse=True` preserves stability, so
it is embedded as the (stable) `List.mergeSort` under the descending
comparison on the probability; `[:k]` is `take k`.  The subsequent
`index_to_class` formatting (`prediction.py:182-188`) maps entries one-to-one
and preserves count and order. -/
def get_top_k_predictions (preds : List ℚ) (k : Nat) : List (Nat × ℚ) :=
  ((ImageClassifier.predict preds).probabilities.mergeSort probDescLE).take k

/-! ## prediction.py : prediction-log statistics -/

/-- One parsed log entry as consumed by `get_prediction_statistics`:
`log.get('success', False)`, `log.get('predicted_class')`,
`log.get('confidence')`. -/
structure LogEntry where
  success : Bool := false
  predicted_class : Option String := none
  confidence : Option ℚ := none
deriving DecidableEq

/-- The state of the log file at `log_path`: absent, present but not valid
JSON (`json.load` raises, message `errMsg`), or a parsed JSON array. -/
inductive LogFile where
  | missing
  | unparsable (errMsg : String)
  | parsed (logs : List LogEntry)
deriving DecidableEq

/-- The statistics dictionary built at `prediction.py:297-305`. -/
structure PredictionStats where
  total_predictions : Nat
  successful_predictions : Nat
  failed_predictions : Nat
  class_distribution : List (String × Nat)
  average_confidence : ℚ
  min_confidence : ℚ
  max_confidence : ℚ
deriving DecidableEq

/-- Result of `get_prediction_statistics`: either an `{'error': …}` marker or
a statistics dictionary. -/
inductive StatsResult where
  | error (msg : String)
  | stats (s : PredictionStats)
deriving DecidableEq

/-- Is the result a statistics dictionary (rather than an error marker)? -/
def StatsResult.isStats : StatsResult → Bool
  | .stats _ => true
  | .error _ => false

/-- Embeds `class_counts[pred_class] = class_counts.get(pred_class, 0) + 1`
(`prediction.py:291`) on an insertion-ordered dictionary. -/
def bumpCount : List (String × Nat) → String → List (String × Nat)
  | [], c => [(c, 1)]
  | (k, n) :: rest, c =>
    if k = c then (k, n + 1) :: rest else (k, n) :: bumpCount rest c

/-- The aggregation loop of `prediction.py:287-295`: for each successful log
entry, count its predicted class when it is truthy (`if pred_class:` — a
missing key and the empty string are both falsy in Python and are skipped),
and collect its confidence when it is not `None` (`if confidence is not
None:` — an exact `None` test, so a `0.0` confidence is collected). -/
def statsLoop (counts : List (String × Nat)) (confs : List ℚ) :
    List LogEntry → List (String × Nat) × List ℚ
  | [] => (counts, confs)
  | log :: rest =>
    if log.success then
      let counts' := match log.predicted_class with
        | some c => if c = "" then counts else bumpCount counts c
        | none => counts
      let confs' := match log.confidence with
        | some v => confs ++ [v]
        | none => confs
      statsLoop counts' confs' rest
    else
      statsLoop counts confs rest

/-- Embeds `np.mean` of a list of rationals. -/
def npMean (l : List ℚ) : ℚ := l.sum / l.length

/-- Embeds `np.min` of a non-empty list (the `0` case is guarded in the caller). -/
def npMin : List ℚ → ℚ
  | [] => 0
  | x :: xs => xs.foldl min x

/-- Embeds `np.max` of a non-empty list (the `0` case is guarded in the caller). -/
def npMax : List ℚ → ℚ
  | [] => 0
  | x :: xs => xs.foldl max x

/-- Embeds `PredictionService.get_prediction_statistics` (`prediction.py:261-310`):
a missing file returns `{'error': 'No prediction logs found'}`; a `json.load`
failure is caught by the outer `except` and returned as `{'error': str(e)}`;
a parsed array is aggregated into the statistics dictionary, with
`average/min/max_confidence` falling back to `0` when no successful entry
carries a confidence. -/
def get_prediction_statistics : LogFile → StatsResult
  | .missing => .error "No prediction logs found"
  | .unparsable e => .error e
  | .parsed logs =>
    let total := logs.length
    let successful := (logs.filter fun l => l.success).length
    let r := statsLoop [] [] logs
    .stats
      { total_predictions := total
        successful_predictions := successful
        failed_predictions := total - successful
        class_distribution := r.1
        average_confidence := if r.2.isEmpty then 0 else npMean r.2
        min_confidence := if r.2.isEmpty then 0 else npMin r.2
        max_confidence := if r.2.isEmpty then 0 else npMax r.2 }

/-- The all-zero statistics dictionary (what the code returns for a log that
parses to an empty array). -/
def zeroStats : PredictionStats :=
  { total_predictions := 0, successful_predictions := 0, failed_predictions := 0
    class_distribution := [], average_confidence := 0, min_confidence := 0
    max_confidence := 0 }

/-- Total extractor for a `StatsResult` with a default. -/
def StatsResult.getD : StatsResult → PredictionStats → PredictionStats
  | .stats s, _ => s
  | .error _, d => d

/-- Specification-side description of the confidences the aggregation loop
collects: those of successful entries that carry one, in log order. -/
def successConfs (logs : List LogEntry) : List ℚ :=
  logs.filterMap fun l => if l.success then l.confidence else none

/-! ## app.py : retraining job and route -/

/-- The process-wide `retraining_status` dictionary (`app.py:50-55`). -/
structure RetrainingStatus where
  is_running : Bool := false
  progress : Nat := 0
  message : String := ""
  last_retrain_time : Option String := none
deriving DecidableEq

/-- A flashed UI message: text and category. -/
structure Flash where
  text : String
  category : String
deriving DecidableEq

/-- The `POST /retrain` handler (`app.py:240-258`) as a state transition:
given the current status it returns the (unchanged) status, the flashed
message, and whether a background retraining thread was started.  When
`retraining_status['is_running']` is set it only flashes a warning and
redirects; otherwise it spawns the job and flashes an info message. -/
def retrain_post (s : RetrainingStatus) : RetrainingStatus × Flash × Bool :=
  if s.is_running then
    (s, ⟨"Retraining already in progress", "warning"⟩, false)
  else
    (s, ⟨"Retraining started! This may take several minutes.", "info"⟩, true)

/-- Which of the three fallible external operations of the retraining job
raises, if any: operation `0` is `create_train_generator`, `1` is
`classifier.retrain` (including its internal `load_model`), `2` is
`save_model` (either call).  Constructing the preprocessor/classifier cannot
raise, and `initialize_model` (`app.py:68-86`) catches its own exceptions. -/
def raiseAt (failAt : Option (Nat × String)) (k : Nat) : Option String :=
  match failAt with
  | some (j, e) => if j = k then some e else none
  | none => none

/-- The `try` body of `perform_retraining` (`app.py:271-320`): the sequence of
status mutations, stopped at the first raising operation; returns the status
as of the exception (if any) together with the exception text. -/
def tryRetraining (failAt : Option (Nat × String)) (now : String)
    (s0 : RetrainingStatus) : RetrainingStatus × Option String :=
  let s1 : RetrainingStatus :=
    { s0 with is_running := true, progress := 0
              message := "Initializing retraining..." }
  let s2 : RetrainingStatus :=
    { s1 with progress := 10, message := "Loading data..." }
  match raiseAt failAt 0 with
  | some e => (s2, some e)
  | none =>
    let s3 : RetrainingStatus :=
      { s2 with progress := 30, message := "Retraining model..." }
    match raiseAt failAt 1 with
    | some e => (s3, some e)
    | none =>
      let s4 : RetrainingStatus :=
        { s3 with progress := 80, message := "Saving retrained model..." }
      match raiseAt failAt 2 with
      | some e => (s4, some e)
      | none =>
        let s5 : RetrainingStatus :=
          { s4 with progress := 90, message := "Reloading model..." }
        let s6 : RetrainingStatus :=
          { s5 with progress := 100
                    message := "Retraining completed successfully!"
                    last_retrain_time := some now }
        (s6, none)

/-- The `except Exception as e` clause (`app.py:322-324`): set the message to
`f'Error during retraining: {str(e)}'` and reset the progress to `0`. -/
def exceptClause (s : RetrainingStatus) : Option String → RetrainingStatus
  | some e => { s with message := "Error during retraining: " ++ e, progress := 0 }
  | none => s

/-- The `finally` clause (`app.py:326-327`): unconditionally clear
`is_running`. -/
def finallyClause (s : RetrainingStatus) : RetrainingStatus :=
  { s with is_running := false }

/-- Embeds `perform_retraining` (`app.py:267-327`): try body, except clause on
failure, finally clause always. -/
def perform_retraining (failAt : Option (Nat × String)) (now : String)
    (s0 : RetrainingStatus) : RetrainingStatus :=
  finallyClause
    (exceptClause (tryRetraining failAt now s0).1 (tryRetraining failAt now s0).2)

/-! # Theorems -/

/-- Claim C1: for every image source, `predict_image` / `predict_uploaded_image`
never raise — the embedding makes every internal failure an `Except.error`
flowing into the `except` clause, and both functions are total.  The returned
record always carries the source identifier (`image_path` resp. `filename`)
and the timestamp; its `success` flag is true exactly when the internal
pipeline succeeded, and an `error` field is present exactly when
`success = false`. -/
theorem claim_C1_predict_never_raises
    (svc : PredictionService) (pre : ImagePreprocessor) (model : Option KerasModel)
    (loadEnv : String → Except String PILImage) (file : UploadedFile)
    (openResult : Except String PILImage) (image_path ts : String) :
    ((svc.predict_image pre model loadEnv image_path ts).image_path = some image_path ∧
      (svc.predict_image pre model loadEnv image_path ts).timestamp = ts ∧
      (svc.predict_image pre model loadEnv image_path ts).success
        = exceptOk (tryPredictResult svc model
            (preprocess_single_image pre (loadEnv image_path) image_path)) ∧
      (svc.predict_image pre model loadEnv image_path ts).error.isSome
        = !(svc.predict_image pre model loadEnv image_path ts).success) ∧
    ((svc.predict_uploaded_image pre model file openResult ts).filename
        = some (file.filename.getD "unknown") ∧
      (svc.predict_uploaded_image pre model file openResult ts).timestamp = ts ∧
      (svc.predict_uploaded_image pre model file openResult ts).success
        = exceptOk (tryPredictResult svc model
            (preprocess_uploaded_image pre openResult)) ∧
      (svc.predict_uploaded_image pre model file openResult ts).error.isSome
        = !(svc.predict_uploaded_image pre model file openResult ts).success) := by
  constructor
  · cases h : tryPredictResult svc model
      (preprocess_single_image pre (loadEnv image_path) image_path) with
    | ok v =>
      obtain ⟨name, idx, conf, probs⟩ := v
      simp [PredictionService.predict_image, h, exceptOk]
    | error e =>
      simp [PredictionService.predict_image, h, exceptOk]
  · cases h : tryPredictResult svc model (preprocess_uploaded_image pre openResult) with
    | ok v =>
      obtain ⟨name, idx, conf, probs⟩ := v
      simp [PredictionService.predict_uploaded_image, h, exceptOk]
    | error e =>
      simp [PredictionService.predict_uploaded_image, h, exceptOk]

/-- Claim C2: every run of `perform_retraining` — completing or raising at any
of its fallible steps — ends with `is_running = false` (the `finally` clause),
and a raising run additionally ends with `progress = 0` and the message set
to the error text prefixed by `'Error during retraining: '` (the `except`
clause). -/
theorem claim_C2_retraining_clears_is_running
    (failAt : Option (Nat × String)) (now : String) (s0 : RetrainingStatus)
    (j : Nat) (e : String) :
    (perform_retraining failAt now s0).is_running = false ∧
    (failAt = some (j, e) → j < 3 →
      (perform_retraining failAt now s0).progress = 0 ∧
      (perform_retraining failAt now s0).message = "Error during retraining: " ++ e) := by
  constructor
  · simp [perform_retraining, finallyClause]
  · rintro rfl hj
    interval_cases j <;>
      simp [perform_retraining, tryRetraining, raiseAt, exceptClause, finallyClause]

/-- Witness for C2 at a concrete failing run (`classifier.retrain` raises
`"boom"`). -/
theorem claim_C2_witness :
    (perform_retraining (some (1, "boom")) "T"
      { is_running := true, progress := 55, message := "old", last_retrain_time := none }).is_running
        = false ∧
    (some (1, "boom") = some (1, "boom") → 1 < 3 →
      (perform_retraining (some (1, "boom")) "T"
        { is_running := true, progress := 55, message := "old", last_retrain_time := none }).progress = 0 ∧
      (perform_retraining (some (1, "boom")) "T"
        { is_running := true, progress := 55, message := "old", last_retrain_time := none }).message
          = "Error during retraining: " ++ "boom") :=
  claim_C2_retraining_clears_is_running (some (1, "boom")) "T"
    { is_running := true, progress := 55, message := "old", last_retrain_time := none } 1 "boom"

/-- Claim C3: while `retraining_status['is_running']` is set, a `POST /retrain`
is rejected: it starts no background job (third component `false`), flashes
only a warning, and returns the status record literally unchanged.  Since the
handler is the only entry point that starts the job, and `retrain_post` starts
one only from a non-running status, at most one retraining job runs at a time
in the sequential request model. -/
theorem claim_C3_retrain_rejected_while_running
    (s : RetrainingStatus) (h : s.is_running = true) :
    retrain_post s = (s, ⟨"Retraining already in progress", "warning"⟩, false) := by
  simp [retrain_post, h]

/-- Witness for C3 at a concrete running status. -/
theorem claim_C3_witness :
    ({ is_running := true, progress := 40, message := "Retraining model..."
       last_retrain_time := none } : RetrainingStatus).is_running = true ∧
    retrain_post
        { is_running := true, progress := 40, message := "Retraining model..."
          last_retrain_time := none }
      = ({ is_running := true, progress := 40, message := "Retraining model..."
           last_retrain_time := none },
         ⟨"Retraining already in progress", "warning"⟩, false) :=
  ⟨rfl, claim_C3_retrain_rejected_while_running
    { is_running := true, progress := 40, message := "Retraining model..."
      last_retrain_time := none } rfl⟩

/-- Claim C8: a decode failure makes both preprocessors fail with the invalid
image error (the `ValueError` re-raised at `preprocessing.py:137`/`176`,
named `InvalidImageError` in the spec's taxonomy) wrapping the original
message — never any other error constructor. -/
theorem claim_C8_decode_failure_is_invalid_image
    (pre : ImagePreprocessor) (e image_path : String) :
    preprocess_single_image pre (Except.error e) image_path
      = Except.error (RepoError.invalidImage
          ("Error preprocessing image " ++ image_path ++ ": " ++ e)) ∧
    preprocess_uploaded_image pre (Except.error e)
      = Except.error (RepoError.invalidImage
          ("Error preprocessing uploaded image: " ++ e)) :=
  ⟨rfl, rfl⟩

/-- Claim C10: `predict_batch` returns one record per input path, in input
order, the `i`-th being exactly `predict_image` of the `i`-th path; a failing
path yields a `success=false` record in place rather than shortening or
aborting the batch. -/
theorem claim_C10_batch_positional
    (svc : PredictionService) (pre : ImagePreprocessor) (model : Option KerasModel)
    (loadEnv : String → Except String PILImage) (ts : String)
    (image_paths : List String) (i : Nat) (err : RepoError)
    (hi : i < image_paths.length) :
    (svc.predict_batch pre model loadEnv ts image_paths).length = image_paths.length ∧
    (svc.predict_batch pre model loadEnv ts image_paths)[i]?
      = some (svc.predict_image pre model loadEnv image_paths[i] ts) ∧
    (tryPredictResult svc model
        (preprocess_single_image pre (loadEnv image_paths[i]) image_paths[i])
          = .error err →
      (svc.predict_batch pre model loadEnv ts image_paths)[i]?
        = some { success := false, error := some err.message
                 image_path := some image_paths[i], timestamp := ts }) := by
  refine ⟨by simp [PredictionService.predict_batch], ?_, ?_⟩
  · simp [PredictionService.predict_batch, List.getElem?_eq_getElem hi]
  · intro hfail
    simp [PredictionService.predict_batch, List.getElem?_eq_getElem hi,
      PredictionService.predict_image, hfail]

/-- Witness for C10: a one-element batch whose single path fails (no model
loaded) and yields a `success=false` record at position 0. -/
theorem claim_C10_witness :
    ((PredictionService.mk [(0, "cat")]).predict_batch ⟨(1, 1)⟩ none
        (fun _ => Except.ok ⟨"RGB", [[[0, 0, 0]]]⟩) "T" ["a.png"]).length
      = (["a.png"] : List String).length ∧
    ((PredictionService.mk [(0, "cat")]).predict_batch ⟨(1, 1)⟩ none
        (fun _ => Except.ok ⟨"RGB", [[[0, 0, 0]]]⟩) "T" ["a.png"])[0]?
      = some ((PredictionService.mk [(0, "cat")]).predict_image ⟨(1, 1)⟩ none
          (fun _ => Except.ok ⟨"RGB", [[[0, 0, 0]]]⟩) (["a.png"] : List String)[0] "T") ∧
    (tryPredictResult (PredictionService.mk [(0, "cat")]) none
        (preprocess_single_image ⟨(1, 1)⟩
          ((fun _ => Except.ok ⟨"RGB", [[[0, 0, 0]]]⟩) (["a.png"] : List String)[0])
          (["a.png"] : List String)[0])
          = .error (RepoError.notInitialized "Model not created or loaded.") →
      ((PredictionService.mk [(0, "cat")]).predict_batch ⟨(1, 1)⟩ none
          (fun _ => Except.ok ⟨"RGB", [[[0, 0, 0]]]⟩) "T" ["a.png"])[0]?
        = some { success := false
                 error := some (RepoError.notInitialized "Model not created or loaded.").message
                 image_path := some (["a.png"] : List String)[0], timestamp := "T" }) :=
  claim_C10_batch_positional (PredictionService.mk [(0, "cat")]) ⟨(1, 1)⟩ none
    (fun _ => Except.ok ⟨"RGB", [[[0, 0, 0]]]⟩) "T" ["a.png"] 0
    (RepoError.notInitialized "Model not created or loaded.") (by decide)

/-- Claim C7 (code bug): `save_model` computes the sidecar path with
`filepath.replace('.h5', '_metadata.json')`, which leaves any path without
`'.h5'` unchanged.  Saving to `'model.keras'` therefore writes the metadata
JSON to `'model.keras'` itself, clobbering the just-saved model artifact, and
the subsequent `load_model('model.keras')` fails to deserialize it — the
save/load metadata round-trip of the claim cannot complete, even though
`load_model` explicitly advertises `.keras` support (`model.py:400-401`) and
`app.py:39-41` prefers the `.keras` serving path. -/
theorem claim_C7_keras_roundtrip_broken :
    (ImageClassifier.save_model
        { img_size := (128, 128), num_classes := 3, learning_rate := 7 }
        [] "model.keras").lookup "model.keras"
      = some (FileContent.jsonMeta (128, 128) 3 7) ∧
    ImageClassifier.load_model
        { img_size := (224, 224), num_classes := 2, learning_rate := 2 }
        (ImageClassifier.save_model
          { img_size := (128, 128), num_classes := 3, learning_rate := 7 }
          [] "model.keras") "model.keras"
      = Except.error (RepoError.modelLoad "Error loading model") := by
  decide

/-- Reading an association list after a cons, with default `0`. -/
theorem lookup_cons_getD (k : String) (n : Nat) (rest : List (String × Nat))
    (c : String) :
    ((((k, n) :: rest).lookup c).getD 0)
      = if c = k then n else ((rest.lookup c).getD 0) := by
  by_cases h : c = k
  · subst h
    simp [List.lookup]
  · have hb : (c == k) = false := beq_eq_false_iff_ne.mpr h
    simp [List.lookup, hb, h]

/-- The counter stored by `bumpCount` for a class equals the old counter plus
one for the bumped class, unchanged otherwise. -/
theorem lookup_bumpCount (counts : List (String × Nat)) (c c0 : String) :
    ((bumpCount counts c0).lookup c).getD 0
      = (counts.lookup c).getD 0 + if c = c0 then 1 else 0 := by
  induction counts with
  | nil =>
    rw [show bumpCount [] c0 = [(c0, 1)] from rfl, lookup_cons_getD]
    simp [List.lookup]
  | cons kv rest ih =>
    obtain ⟨k, n⟩ := kv
    by_cases hk : k = c0
    · subst hk
      rw [show bumpCount ((k, n) :: rest) k = (k, n + 1) :: rest from by
            simp [bumpCount],
        lookup_cons_getD, lookup_cons_getD]
      by_cases hc : c = k <;> simp [hc]
    · rw [show bumpCount ((k, n) :: rest) c0 = (k, n) :: bumpCount rest c0 from by
            simp [bumpCount, hk],
        lookup_cons_getD, lookup_cons_getD]
      by_cases hc : c = k
      · have hcc : ¬ c = c0 := by rw [hc]; exact hk
        simp [hc, hcc]
        exact hk
      · simp [hc, ih]

/-- The confidence list accumulated by `statsLoop` is the initial accumulator
followed by the confidences of the successful entries, in log order. -/
theorem statsLoop_snd (logs : List LogEntry) : ∀ counts confs,
    (statsLoop counts confs logs).2 = confs ++ successConfs logs := by
  induction logs with
  | nil => intro counts confs; simp [statsLoop, successConfs]
  | cons l rest ih =>
    intro counts confs
    cases hs : l.success
    · simp [statsLoop, hs, successConfs, List.filterMap_cons, ih]
    · cases hc : l.confidence <;> cases hp : l.predicted_class <;>
        simp [statsLoop, hs, hc, hp, successConfs, List.filterMap_cons, ih]

/-- The class counter accumulated by `statsLoop` counts, per class, the
successful entries predicting that class with a truthy (non-empty) name, on
top of the initial accumulator; the count at the empty-string class is never
bumped, mirroring the `if pred_class:` guard. -/
theorem statsLoop_fst_lookup (logs : List LogEntry) (c : String) : ∀ counts confs,
    (((statsLoop counts confs logs).1).lookup c).getD 0
      = (counts.lookup c).getD 0
        + logs.countP fun l =>
            l.success && (l.predicted_class == some c) && !(c == "") := by
  induction logs with
  | nil => intro counts confs; simp [statsLoop]
  | cons l rest ih =>
    intro counts confs
    cases hs : l.success
    · simp [statsLoop, hs, ih, List.countP_cons]
    · cases hp : l.predicted_class with
      | none =>
        cases hc : l.confidence <;>
          simp [statsLoop, hs, hp, hc, ih, List.countP_cons]
      | some c0 =>
        by_cases hc0 : c0 = ""
        · subst hc0
          by_cases hcc : c = ""
          · subst hcc
            cases hc : l.confidence <;>
              simp [statsLoop, hs, hp, hc, ih, List.countP_cons]
          · cases hc : l.confidence <;>
              simp [statsLoop, hs, hp, hc, hcc, ih, List.countP_cons] <;>
              exact fun h => hcc h.symm
        · by_cases hcc : c0 = c
          · subst hcc
            cases hc : l.confidence <;>
              simp [statsLoop, hs, hp, hc, hc0, ih, List.countP_cons,
                lookup_bumpCount] <;>
              omega
          · cases hc : l.confidence <;>
              simp [statsLoop, hs, hp, hc, hc0, hcc, ih, List.countP_cons,
                lookup_bumpCount] <;>
              first
              | omega
              | exact fun h => hcc h.symm

/-- A left fold by `min` is bounded by its initial value. -/
theorem foldl_min_le_init (xs : List ℚ) : ∀ x, xs.foldl min x ≤ x := by
  induction xs with
  | nil => intro x; simp
  | cons a t ih => intro x; exact le_trans (ih (min x a)) (min_le_left x a)

/-- A left fold by `min` is bounded by every list element. -/
theorem foldl_min_le_mem (xs : List ℚ) : ∀ x, ∀ y ∈ xs, xs.foldl min x ≤ y := by
  induction xs with
  | nil => intro x y hy; simp at hy
  | cons a t ih =>
    intro x y hy
    rcases List.mem_cons.mp hy with rfl | hy'
    · exact le_trans (foldl_min_le_init t (min x y)) (min_le_right x y)
    · exact ih (min x a) y hy'

/-- A left fold by `min` is the initial value or a list element. -/
theorem foldl_min_mem (xs : List ℚ) : ∀ x, xs.foldl min x = x ∨ xs.foldl min x ∈ xs := by
  induction xs with
  | nil => intro x; left; rfl
  | cons a t ih =>
    intro x
    rcases ih (min x a) with h | h
    · rcases min_choice x a with hm | hm
      · left; rw [List.foldl_cons, h, hm]
      · right; rw [List.foldl_cons, h, hm]; exact List.mem_cons_self a t
    · right
      exact List.mem_cons_of_mem a h

/-- A left fold by `max` dominates its initial value. -/
theorem foldl_max_init_le (xs : List ℚ) : ∀ x, x ≤ xs.foldl max x := by
  induction xs with
  | nil => intro x; simp
  | cons a t ih => intro x; exact le_trans (le_max_left x a) (ih (max x a))

/-- A left fold by `max` dominates every list element. -/
theorem foldl_max_mem_le (xs : List ℚ) : ∀ x, ∀ y ∈ xs, y ≤ xs.foldl max x := by
  induction xs with
  | nil => intro x y hy; simp at hy
  | cons a t ih =>
    intro x y hy
    rcases List.mem_cons.mp hy with rfl | hy'
    · exact le_trans (le_max_right x y) (foldl_max_init_le t (max x y))
    · exact ih (max x a) y hy'

/-- A left fold by `max` is the initial value or a list element. -/
theorem foldl_max_mem (xs : List ℚ) : ∀ x, xs.foldl max x = x ∨ xs.foldl max x ∈ xs := by
  induction xs with
  | nil => intro x; left; rfl
  | cons a t ih =>
    intro x
    rcases ih (max x a) with h | h
    · rcases max_choice x a with hm | hm
      · left; rw [List.foldl_cons, h, hm]
      · right; rw [List.foldl_cons, h, hm]; exact List.mem_cons_self a t
    · right
      exact List.mem_cons_of_mem a h

/-- Value of `np.min` of a non-empty list is a member and a lower bound. -/
theorem npMin_spec (l : List ℚ) (h : l ≠ []) :
    npMin l ∈ l ∧ ∀ y ∈ l, npMin l ≤ y := by
  match l, h with
  | x :: xs, _ =>
    constructor
    · rcases foldl_min_mem xs x with hm | hm
      · rw [npMin, hm]; exact List.mem_cons_self x xs
      · rw [npMin]; exact List.mem_cons_of_mem x hm
    · intro y hy
      rcases List.mem_cons.mp hy with rfl | hy'
      · exact foldl_min_le_init xs y
      · exact foldl_min_le_mem xs x y hy'

/-- Value of `np.max` of a non-empty list is a member and an upper bound. -/
theorem npMax_spec (l : List ℚ) (h : l ≠ []) :
    npMax l ∈ l ∧ ∀ y ∈ l, y ≤ npMax l := by
  match l, h with
  | x :: xs, _ =>
    constructor
    · rcases foldl_max_mem xs x with hm | hm
      · rw [npMax, hm]; exact List.mem_cons_self x xs
      · rw [npMax]; exact List.mem_cons_of_mem x hm
    · intro y hy
      rcases List.mem_cons.mp hy with rfl | hy'
      · exact foldl_max_init_le xs y
      · exact foldl_max_mem_le xs x y hy'

/-- Claim C9 counterexample: a log file that exists and parses to the empty
array yields the zero-filled statistics dictionary, not a "no logs" error
marker, refuting the claim for empty logs. -/
theorem claim_C9_counterexample :
    get_prediction_statistics (LogFile.parsed []) = StatsResult.stats zeroStats ∧
    (get_prediction_statistics (LogFile.parsed [])).isStats = true := by
  decide

/-- Claim C9 (amended): a missing log file yields the explicit
`'No prediction logs found'` marker and an unparsable one an error marker;
a log parsing to an array — including the empty array — yields a statistics
dictionary whose totals count the whole log, whose per-class distribution
counts the successful predictions of each truthy (non-empty) class name —
the `if pred_class:` guard skips a missing or empty-string class — and whose
min/mean/max are taken over the successful entries' confidences (`0` when
there are none). -/
theorem claim_C9_amended_statistics (emsg : String) (logs : List LogEntry) (c : String) :
    get_prediction_statistics LogFile.missing
      = StatsResult.error "No prediction logs found" ∧
    get_prediction_statistics (LogFile.unparsable emsg) = StatsResult.error emsg ∧
    (get_prediction_statistics (LogFile.parsed logs)).isStats = true ∧
    ((get_prediction_statistics (LogFile.parsed logs)).getD zeroStats).total_predictions
      = logs.length ∧
    ((get_prediction_statistics (LogFile.parsed logs)).getD zeroStats).successful_predictions
      = logs.countP (fun l => l.success) ∧
    ((get_prediction_statistics (LogFile.parsed logs)).getD zeroStats).failed_predictions
      = logs.length - logs.countP (fun l => l.success) ∧
    ((((get_prediction_statistics (LogFile.parsed logs)).getD
        zeroStats).class_distribution.lookup c).getD 0)
      = logs.countP (fun l =>
          l.success && (l.predicted_class == some c) && !(c == "")) ∧
    (successConfs logs = [] →
      ((get_prediction_statistics (LogFile.parsed logs)).getD zeroStats).average_confidence = 0 ∧
      ((get_prediction_statistics (LogFile.parsed logs)).getD zeroStats).min_confidence = 0 ∧
      ((get_prediction_statistics (LogFile.parsed logs)).getD zeroStats).max_confidence = 0) ∧
    (successConfs logs ≠ [] →
      ((get_prediction_statistics (LogFile.parsed logs)).getD zeroStats).min_confidence
        ∈ successConfs logs ∧
      (∀ y ∈ successConfs logs,
        ((get_prediction_statistics (LogFile.parsed logs)).getD zeroStats).min_confidence ≤ y) ∧
      ((get_prediction_statistics (LogFile.parsed logs)).getD zeroStats).max_confidence
        ∈ successConfs logs ∧
      (∀ y ∈ successConfs logs,
        y ≤ ((get_prediction_statistics (LogFile.parsed logs)).getD zeroStats).max_confidence) ∧
      ((get_prediction_statistics (LogFile.parsed logs)).getD zeroStats).average_confidence
          * (successConfs logs).length
        = (successConfs logs).sum) := by
  have hconf : (statsLoop [] [] logs).2 = successConfs logs := by
    simpa using statsLoop_snd logs [] []
  refine ⟨rfl, rfl, rfl, rfl, ?_, ?_, ?_, ?_, ?_⟩
  · simp [get_prediction_statistics, StatsResult.getD, List.countP_eq_length_filter]
  · simp [get_prediction_statistics, StatsResult.getD, List.countP_eq_length_filter]
  · simpa [get_prediction_statistics, StatsResult.getD] using
      statsLoop_fst_lookup logs c [] []
  · intro h
    simp [get_prediction_statistics, StatsResult.getD, hconf, h]
  · intro h
    have hne : (statsLoop [] [] logs).2 ≠ [] := by rw [hconf]; exact h
    have hmin := npMin_spec (successConfs logs) h
    have hmax := npMax_spec (successConfs logs) h
    have hlen : ((successConfs logs).length : ℚ) ≠ 0 := by
      exact_mod_cast fun hz => h (List.length_eq_zero.mp (by exact_mod_cast hz))
    refine ⟨?_, ?_, ?_, ?_, ?_⟩
    · simpa [get_prediction_statistics, StatsResult.getD, hconf, h] using hmin.1
    · intro y hy
      have := hmin.2 y hy
      simpa [get_prediction_statistics, StatsResult.getD, hconf, h] using this
    · simpa [get_prediction_statistics, StatsResult.getD, hconf, h] using hmax.1
    · intro y hy
      have := hmax.2 y hy
      simpa [get_prediction_statistics, StatsResult.getD, hconf, h] using this
    · simp [get_prediction_statistics, StatsResult.getD, hconf, h, npMean]

/-- Witness for the amended C9 at a concrete log. -/
theorem claim_C9_witness :
    get_prediction_statistics LogFile.missing
      = StatsResult.error "No prediction logs found" ∧
    get_prediction_statistics (LogFile.unparsable "bad json") = StatsResult.error "bad json" ∧
    (get_prediction_statistics
      (LogFile.parsed [⟨true, some "cat", some 1⟩, ⟨false, none, none⟩])).isStats = true ∧
    ((get_prediction_statistics
      (LogFile.parsed [⟨true, some "cat", some 1⟩, ⟨false, none, none⟩])).getD
        zeroStats).total_predictions
      = ([⟨true, some "cat", some 1⟩, ⟨false, none, none⟩] : List LogEntry).length ∧
    ((get_prediction_statistics
      (LogFile.parsed [⟨true, some "cat", some 1⟩, ⟨false, none, none⟩])).getD
        zeroStats).successful_predictions
      = ([⟨true, some "cat", some 1⟩, ⟨false, none, none⟩] : List LogEntry).countP
          (fun l => l.success) ∧
    ((get_prediction_statistics
      (LogFile.parsed [⟨true, some "cat", some 1⟩, ⟨false, none, none⟩])).getD
        zeroStats).failed_predictions
      = ([⟨true, some "cat", some 1⟩, ⟨false, none, none⟩] : List LogEntry).length
        - ([⟨true, some "cat", some 1⟩, ⟨false, none, none⟩] : List LogEntry).countP
            (fun l => l.success) ∧
    ((((get_prediction_statistics
      (LogFile.parsed [⟨true, some "cat", some 1⟩, ⟨false, none, none⟩])).getD
        zeroStats).class_distribution.lookup "cat").getD 0)
      = ([⟨true, some "cat", some 1⟩, ⟨false, none, none⟩] : List LogEntry).countP
          (fun l =>
            l.success && (l.predicted_class == some "cat") && !("cat" == "")) ∧
    (successConfs [⟨true, some "cat", some 1⟩, ⟨false, none, none⟩] = [] →
      ((get_prediction_statistics
        (LogFile.parsed [⟨true, some "cat", some 1⟩, ⟨false, none, none⟩])).getD
          zeroStats).average_confidence = 0 ∧
      ((get_prediction_statistics
        (LogFile.parsed [⟨true, some "cat", some 1⟩, ⟨false, none, none⟩])).getD
          zeroStats).min_confidence = 0 ∧
      ((get_prediction_statistics
        (LogFile.parsed [⟨true, some "cat", some 1⟩, ⟨false, none, none⟩])).getD
          zeroStats).max_confidence = 0) ∧
    (successConfs [⟨true, some "cat", some 1⟩, ⟨false, none, none⟩] ≠ [] →
      ((get_prediction_statistics
        (LogFile.parsed [⟨true, some "cat", some 1⟩, ⟨false, none, none⟩])).getD
          zeroStats).min_confidence
        ∈ successConfs [⟨true, some "cat", some 1⟩, ⟨false, none, none⟩] ∧
      (∀ y ∈ successConfs [⟨true, some "cat", some 1⟩, ⟨false, none, none⟩],
        ((get_prediction_statistics
          (LogFile.parsed [⟨true, some "cat", some 1⟩, ⟨false, none, none⟩])).getD
            zeroStats).min_confidence ≤ y) ∧
      ((get_prediction_statistics
        (LogFile.parsed [⟨true, some "cat", some 1⟩, ⟨false, none, none⟩])).getD
          zeroStats).max_confidence
        ∈ successConfs [⟨true, some "cat", some 1⟩, ⟨false, none, none⟩] ∧
      (∀ y ∈ successConfs [⟨true, some "cat", some 1⟩, ⟨false, none, none⟩],
        y ≤ ((get_prediction_statistics
          (LogFile.parsed [⟨true, some "cat", some 1⟩, ⟨false, none, none⟩])).getD
            zeroStats).max_confidence) ∧
      ((get_prediction_statistics
        (LogFile.parsed [⟨true, some "cat", some 1⟩, ⟨false, none, none⟩])).getD
          zeroStats).average_confidence
          * (successConfs [⟨true, some "cat", some 1⟩, ⟨false, none, none⟩]).length
        = (successConfs [⟨true, some "cat", some 1⟩, ⟨false, none, none⟩]).sum) :=
  claim_C9_amended_statistics "bad json" [⟨true, some "cat", some 1⟩, ⟨false, none, none⟩] "cat"

/-- A `getD` read is a list element or the default. -/
theorem getD_mem_or_eq (l : List α) (n : Nat) (d : α) :
    l[n]?.getD d ∈ l ∨ l[n]?.getD d = d := by
  cases h : l[n]? with
  | some a =>
    left
    exact List.getElem?_mem h
  | none =>
    right
    rfl

/-- Color-mode coercion always yields exactly three channels. -/
theorem toRGB_length (px : List Nat) : (toRGB px).length = 3 := by
  match px with
  | [] => rfl
  | [_] => rfl
  | [_, _] => rfl
  | _ :: _ :: _ :: _ => rfl

/-- Color-mode coercion preserves the byte bound. -/
theorem toRGB_bound : ∀ (px : List Nat), (∀ v ∈ px, v < 256) →
    ∀ v ∈ toRGB px, v < 256
  | [], _, v, hv => by
    simp [toRGB] at hv
    omega
  | [l], h, v, hv => by
    simp [toRGB] at hv
    subst hv
    exact h _ (by simp)
  | [l, a], h, v, hv => by
    simp [toRGB] at hv
    subst hv
    exact h _ (by simp)
  | r :: g :: b :: rest, h, v, hv => by
    simp [toRGB] at hv
    rcases hv with rfl | rfl | rfl
    · exact h _ (by simp)
    · exact h _ (by simp)
    · exact h _ (by simp)

/-- All pixels of a converted grid have three channels. -/
theorem convertRGB_px_length (pixels : List (List (List Nat))) :
    ∀ row ∈ convertRGB pixels, ∀ px ∈ row, px.length = 3 := by
  intro row hrow px hpx
  simp [convertRGB] at hrow
  obtain ⟨row0, _, rfl⟩ := hrow
  simp at hpx
  obtain ⟨px0, _, rfl⟩ := hpx
  exact toRGB_length px0

/-- All pixels of a converted grid keep the byte bound. -/
theorem convertRGB_px_bound (pixels : List (List (List Nat)))
    (hb : ∀ row ∈ pixels, ∀ px ∈ row, ∀ v ∈ px, v < 256) :
    ∀ row ∈ convertRGB pixels, ∀ px ∈ row, ∀ v ∈ px, v < 256 := by
  intro row hrow px hpx
  simp [convertRGB] at hrow
  obtain ⟨row0, hrow0, rfl⟩ := hrow
  simp at hpx
  obtain ⟨px0, hpx0, rfl⟩ := hpx
  exact toRGB_bound px0 (hb row0 hrow0 px0 hpx0)

/-- A resized grid has the requested number of rows. -/
theorem resizeGrid_length (g : List (List (List Nat))) (rows cols : Nat) :
    (resizeGrid g rows cols).length = rows := by
  simp [resizeGrid]

/-- Every row of a resized grid has the requested number of columns. -/
theorem resizeGrid_row_length (g : List (List (List Nat))) (rows cols : Nat) :
    ∀ row ∈ resizeGrid g rows cols, row.length = cols := by
  intro row hrow
  simp [resizeGrid] at hrow
  obtain ⟨i, _, rfl⟩ := hrow
  simp

/-- Every pixel of a resized grid is a source pixel or the black default. -/
theorem resizeGrid_pixel (g : List (List (List Nat))) (rows cols : Nat) :
    ∀ row ∈ resizeGrid g rows cols, ∀ px ∈ row,
      px = [0, 0, 0] ∨ ∃ r ∈ g, px ∈ r := by
  intro row hrow px hpx
  simp [resizeGrid] at hrow
  obtain ⟨i, _, rfl⟩ := hrow
  simp at hpx
  obtain ⟨j, _, rfl⟩ := hpx
  rcases getD_mem_or_eq (g[i * g.length / rows]?.getD []) (j * (g[i * g.length / rows]?.getD []).length / cols) [0, 0, 0] with hmem | heq
  · rcases getD_mem_or_eq g (i * g.length / rows) [] with hg | hg
    · right
      exact ⟨_, hg, hmem⟩
    · rw [hg] at hmem
      simp at hmem
  · left
    exact heq

/-- Fusing the array conversion and the rescaling into one pixel map. -/
theorem rescale_imgToArray (x : List (List (List Nat))) :
    rescale (imgToArray x)
      = x.map fun row => row.map fun px => px.map fun v : Nat => (v : ℚ) / 255 := by
  simp [rescale, imgToArray, List.map_map, Function.comp]

/-- The shared tail of both preprocessors: rescaled conversion of a resized
grid of three-channel byte pixels has shape `(1, rows, cols, 3)` and values
in `[0, 1]`. -/
theorem preprocess_grid_spec (g : List (List (List Nat))) (rows cols : Nat)
    (h3 : ∀ r ∈ g, ∀ px ∈ r, px.length = 3)
    (hb : ∀ r ∈ g, ∀ px ∈ r, ∀ v ∈ px, v < 256) :
    tensorShape4 [rescale (imgToArray (resizeGrid g rows cols))] 1 rows cols 3 ∧
    tensorValuesIn01 [rescale (imgToArray (resizeGrid g rows cols))] := by
  rw [rescale_imgToArray]
  constructor
  · refine ⟨rfl, ?_⟩
    intro im him
    rw [List.mem_singleton] at him
    subst him
    refine ⟨by simp [resizeGrid_length], ?_⟩
    intro row hrow
    rw [List.mem_map] at hrow
    obtain ⟨row0, hrow0, rfl⟩ := hrow
    refine ⟨by simp [resizeGrid_row_length g rows cols row0 hrow0], ?_⟩
    intro px hpx
    rw [List.mem_map] at hpx
    obtain ⟨px0, hpx0, rfl⟩ := hpx
    rcases resizeGrid_pixel g rows cols row0 hrow0 px0 hpx0 with h | ⟨r, hr, hpr⟩
    · subst h
      rfl
    · rw [List.length_map]
      exact h3 r hr px0 hpr
  · intro im him row hrow px hpx v hv
    rw [List.mem_singleton] at him
    subst him
    rw [List.mem_map] at hrow
    obtain ⟨row0, hrow0, rfl⟩ := hrow
    rw [List.mem_map] at hpx
    obtain ⟨px0, hpx0, rfl⟩ := hpx
    rw [List.mem_map] at hv
    obtain ⟨n, hn, rfl⟩ := hv
    have hn255 : (n : ℚ) ≤ 255 := by
      rcases resizeGrid_pixel g rows cols row0 hrow0 px0 hpx0 with h | ⟨r, hr, hpr⟩
      · subst h
        simp at hn
        simp [hn]
      · have := hb r hr px0 hpr n hn
        exact_mod_cast Nat.lt_succ_iff.mp this
    constructor
    · positivity
    · rw [div_le_one (by norm_num)]
      exact hn255

/-- Claim C6 (amended): on a decodable image, `preprocess_single_image`
returns a batch-1 array of shape `(1, height, width, 3)` with values in
`[0, 1]`, coercing any color mode to three channels; `preprocess_uploaded_image`
guarantees the same channel and value properties but produces shape
`(1, width, height, 3)` — transposed, because the source passes
`img_size = (height, width)` to PIL's `resize`, which expects
`(width, height)`.  The two shapes coincide exactly when the configured
target is square, as in every configuration the repository uses. -/
theorem claim_C6_amended_preprocess_shape (pre : ImagePreprocessor)
    (img : PILImage) (image_path : String) (hwf : img.wf) :
    (tensorShape4 (exceptGetD (preprocess_single_image pre (Except.ok img) image_path) [])
        1 pre.img_size.1 pre.img_size.2 3 ∧
      tensorValuesIn01 (exceptGetD (preprocess_single_image pre (Except.ok img) image_path) [])) ∧
    (tensorShape4 (exceptGetD (preprocess_uploaded_image pre (Except.ok img)) [])
        1 pre.img_size.2 pre.img_size.1 3 ∧
      tensorValuesIn01 (exceptGetD (preprocess_uploaded_image pre (Except.ok img)) [])) := by
  have hb : ∀ r ∈ img.pixels, ∀ px ∈ r, ∀ v ∈ px, v < 256 :=
    fun r hr px hpx => (hwf r hr px hpx).1
  constructor
  · have := preprocess_grid_spec (convertRGB img.pixels) pre.img_size.1 pre.img_size.2
      (convertRGB_px_length img.pixels) (convertRGB_px_bound img.pixels hb)
    simpa [preprocess_single_image, exceptGetD] using this
  · by_cases hm : img.mode = "RGB"
    · have h3 : ∀ r ∈ img.pixels, ∀ px ∈ r, px.length = 3 :=
        fun r hr px hpx => (hwf r hr px hpx).2 hm
      have := preprocess_grid_spec img.pixels pre.img_size.2 pre.img_size.1 h3 hb
      simpa [preprocess_uploaded_image, exceptGetD, hm] using this
    · have := preprocess_grid_spec (convertRGB img.pixels) pre.img_size.2 pre.img_size.1
        (convertRGB_px_length img.pixels) (convertRGB_px_bound img.pixels hb)
      simpa [preprocess_uploaded_image, exceptGetD, hm] using this

/-- Claim C6 counterexample: with the non-square target `img_size = (2, 3)`
(height 2, width 3), the uploaded-image path produces shape `(1, 3, 2, 3)`
rather than the claimed `(1, 2, 3, 3)`. -/
theorem claim_C6_counterexample :
    tensorShape4 (exceptGetD (preprocess_uploaded_image
        { img_size := (2, 3) }
        (Except.ok { mode := "RGB", pixels := [[[5, 6, 7]]] })) [])
      1 3 2 3 ∧
    ¬ tensorShape4 (exceptGetD (preprocess_uploaded_image
        { img_size := (2, 3) }
        (Except.ok { mode := "RGB", pixels := [[[5, 6, 7]]] })) [])
      1 2 3 3 := by
  decide

/-- Witness for the amended C6: a concrete grayscale 2×1 image at target
size (1, 2). -/
theorem claim_C6_witness :
    (tensorShape4 (exceptGetD (preprocess_single_image
        { img_size := (1, 2) }
        (Except.ok { mode := "L", pixels := [[[7]], [[8]]] }) "img.png") [])
        1 ({ img_size := (1, 2) } : ImagePreprocessor).img_size.1
        ({ img_size := (1, 2) } : ImagePreprocessor).img_size.2 3 ∧
      tensorValuesIn01 (exceptGetD (preprocess_single_image
        { img_size := (1, 2) }
        (Except.ok { mode := "L", pixels := [[[7]], [[8]]] }) "img.png") [])) ∧
    (tensorShape4 (exceptGetD (preprocess_uploaded_image
        { img_size := (1, 2) }
        (Except.ok { mode := "L", pixels := [[[7]], [[8]]] })) [])
        1 ({ img_size := (1, 2) } : ImagePreprocessor).img_size.2
        ({ img_size := (1, 2) } : ImagePreprocessor).img_size.1 3 ∧
      tensorValuesIn01 (exceptGetD (preprocess_uploaded_image
        { img_size := (1, 2) }
        (Except.ok { mode := "L", pixels := [[[7]], [[8]]] })) [])) :=
  claim_C6_amended_preprocess_shape { img_size := (1, 2) }
    { mode := "L", pixels := [[[7]], [[8]]] } "img.png" (by decide)

/-- On a non-empty array, the value at the argmax index is an array element. -/
theorem getD_npArgmax_mem [LinearOrder α] [Zero α] :
    ∀ (l : List α), l ≠ [] → l.getD (npArgmax l) (0 : α) ∈ l
  | [], h => absurd rfl h
  | x :: xs, _ => by
    simp only [npArgmax]
    by_cases hall : (xs.all fun y => decide (y ≤ x)) = true
    · rw [if_pos hall, List.getD_cons_zero]
      exact List.mem_cons_self x xs
    · rw [if_neg hall, List.getD_cons_succ]
      have hxs : xs ≠ [] := by
        intro h0
        subst h0
        simp at hall
      exact List.mem_cons_of_mem x (getD_npArgmax_mem xs hxs)

/-- The value at the argmax index dominates every array element. -/
theorem le_getD_npArgmax [LinearOrder α] [Zero α] :
    ∀ (l : List α), ∀ y ∈ l, y ≤ l.getD (npArgmax l) (0 : α)
  | [], y, hy => absurd hy (List.not_mem_nil y)
  | x :: xs, y, hy => by
    simp only [npArgmax]
    by_cases hall : (xs.all fun y => decide (y ≤ x)) = true
    · rw [if_pos hall, List.getD_cons_zero]
      rcases List.mem_cons.mp hy with rfl | hy'
      · exact le_refl y
      · exact of_decide_eq_true ((List.all_eq_true.mp hall) y hy')
    · rw [if_neg hall, List.getD_cons_succ]
      rcases List.mem_cons.mp hy with rfl | hy'
      · have hex : ∃ z ∈ xs, ¬ (z ≤ y) := by
          by_contra hcon
          push_neg at hcon
          apply hall
          rw [List.all_eq_true]
          intro z hz
          exact decide_eq_true (hcon z hz)
        obtain ⟨z, hz, hzx⟩ := hex
        exact le_of_lt (lt_of_lt_of_le (not_le.mp hzx) (le_getD_npArgmax xs z hz))
      · exact le_getD_npArgmax xs y hy'

/-- Summing a list divided pointwise by a constant. -/
theorem sum_map_div_real (xs : List ℝ) (c : ℝ) :
    (xs.map fun x => Real.exp x / c).sum = (xs.map Real.exp).sum / c := by
  induction xs with
  | nil => simp
  | cons a t ih => simp [ih, add_div]

/-- The softmax of a non-empty logit vector sums to exactly `1` over `ℝ`. -/
theorem softmax_sum (logits : List ℝ) (h : logits ≠ []) :
    (softmax logits).sum = 1 := by
  have hpos : 0 < (logits.map Real.exp).sum := by
    refine List.sum_pos _ ?_ (by simpa [List.map_eq_nil_iff] using h)
    intro x hx
    rw [List.mem_map] at hx
    obtain ⟨y, _, rfl⟩ := hx
    exact Real.exp_pos y
  rw [softmax, sum_map_div_real, div_self (ne_of_gt hpos)]

/-- Claim C5: for every prediction on a softmax output row, the probability
map's values sum to exactly `1` (the floating-point claim, idealized over
`ℝ`), the reported `confidence` is one of the map's values, and it dominates
every value in the map — i.e. it is the maximum. -/
theorem claim_C5_softmax_confidence (logits : List ℝ) (h : logits ≠ []) :
    ((ImageClassifier.predict (softmax logits)).probabilities.map Prod.snd).sum = 1 ∧
    (ImageClassifier.predict (softmax logits)).confidence
      ∈ (ImageClassifier.predict (softmax logits)).probabilities.map Prod.snd ∧
    ∀ p ∈ (ImageClassifier.predict (softmax logits)).probabilities,
      p.2 ≤ (ImageClassifier.predict (softmax logits)).confidence := by
  have hsm : softmax logits ≠ [] := by
    simpa [softmax, List.map_eq_nil_iff] using h
  have hmap : (ImageClassifier.predict (softmax logits)).probabilities.map Prod.snd
      = softmax logits := by
    simp [ImageClassifier.predict, List.enum_map_snd]
  refine ⟨?_, ?_, ?_⟩
  · rw [hmap, softmax_sum logits h]
  · rw [hmap]
    exact getD_npArgmax_mem (softmax logits) hsm
  · intro p hp
    have hp2 : p.2 ∈ softmax logits := by
      rw [← hmap]
      exact List.mem_map_of_mem Prod.snd hp
    exact le_getD_npArgmax (softmax logits) p.2 hp2

/-- Witness for C5 at the one-logit vector `[0]`. -/
theorem claim_C5_witness :
    ([(0 : ℝ)] ≠ []) ∧
    ((ImageClassifier.predict (softmax [(0 : ℝ)])).probabilities.map Prod.snd).sum = 1 :=
  ⟨List.cons_ne_nil 0 [], (claim_C5_softmax_confidence [(0 : ℝ)] (List.cons_ne_nil 0 [])).1⟩

/-- Transitivity of the descending-probability comparison. -/
theorem probDescLE_trans : ∀ (a b c : Nat × ℚ),
    probDescLE a b → probDescLE b c → probDescLE a c := by
  intro a b c hab hbc
  simp [probDescLE] at hab hbc ⊢
  exact le_trans hbc hab

/-- Totality of the descending-probability comparison. -/
theorem probDescLE_total : ∀ (a b : Nat × ℚ), probDescLE a b || probDescLE b a := by
  intro a b
  simp [probDescLE]
  exact le_total b.2 a.2

/-- The first components of an enumerated list are strictly increasing. -/
theorem enumFrom_pairwise_fst_lt (l : List α) :
    ∀ n : Nat, (l.enumFrom n).Pairwise fun a b => a.1 < b.1 := by
  induction l with
  | nil => intro n; simp
  | cons x xs ih =>
    intro n
    rw [List.enumFrom_cons]
    refine List.Pairwise.cons ?_ (ih (n + 1))
    intro b hb
    have := List.le_fst_of_mem_enumFrom hb
    omega

/-- An enumerated list has no duplicates. -/
theorem enum_nodup (l : List α) : l.enum.Nodup := by
  rw [List.enum_eq_enumFrom]
  exact (enumFrom_pairwise_fst_lt l 0).imp fun hlt heq =>
    absurd (heq ▸ hlt) (lt_irrefl _)

/-- Two entries of an enumerated list with increasing indices form a sublist
in that order. -/
theorem pair_sublist_enumFrom :
    ∀ (l : List α) (n : Nat) (a b : Nat × α), a ∈ l.enumFrom n →
      b ∈ l.enumFrom n → a.1 < b.1 → List.Sublist [a, b] (l.enumFrom n) := by
  intro l
  induction l with
  | nil => intro n a b ha; simp at ha
  | cons x xs ih =>
    intro n a b ha hb hab
    rw [List.enumFrom_cons] at ha hb ⊢
    rcases List.mem_cons.mp ha with rfl | ha'
    · rcases List.mem_cons.mp hb with hbx | hb'
      · subst hbx
        simp at hab
      · exact List.Sublist.cons₂ _ (List.singleton_sublist.mpr hb')
    · have hna : n + 1 ≤ a.1 := List.le_fst_of_mem_enumFrom ha'
      rcases List.mem_cons.mp hb with hbx | hb'
      · exfalso
        rw [hbx] at hab
        simp at hab
        omega
      · exact List.Sublist.cons _ (ih (n + 1) a b ha' hb' hab)

/-- Two distinct members of a pairwise-related list are related one way or
the other. -/
theorem rel_or_rel_of_pairwise {R : α → α → Prop} :
    ∀ {l : List α}, l.Pairwise R → ∀ {a b : α}, a ∈ l → b ∈ l → a ≠ b →
      R a b ∨ R b a := by
  intro l hp
  induction hp with
  | nil => intro a b ha; simp at ha
  | cons hhead htail ih =>
    intro a b ha hb hne
    rcases List.mem_cons.mp ha with rfl | ha'
    · rcases List.mem_cons.mp hb with rfl | hb'
      · exact absurd rfl hne
      · exact Or.inl (hhead b hb')
    · rcases List.mem_cons.mp hb with rfl | hb'
      · exact Or.inr (hhead a ha')
      · exact ih ha' hb' hne

/-- A duplicate-free list cannot contain a two-element sublist in both
orders unless the two elements coincide. -/
theorem sublist_pair_antisymm :
    ∀ {l : List α} {a b : α}, l.Nodup → List.Sublist [a, b] l → List.Sublist [b, a] l → a = b := by
  intro l
  induction l with
  | nil =>
    intro a b _ h1
    exact absurd h1 (by simp)
  | cons c xs ih =>
    intro a b hnd h1 h2
    obtain ⟨hc, hxs⟩ := List.nodup_cons.mp hnd
    cases h1 with
    | cons _ h1' =>
      cases h2 with
      | cons _ h2' => exact ih hxs h1' h2'
      | cons₂ _ h2' => exact absurd (h1'.subset (by simp)) hc
    | cons₂ _ h1' =>
      cases h2 with
      | cons _ h2' => exact absurd (h2'.subset (by simp)) hc
      | cons₂ _ h2' => rfl

/-- Stability of the embedded `sorted(..., key=lambda x: x[1], reverse=True)`
on an enumerated probability vector: consecutive output entries are in
weakly-descending probability order and ties keep ascending class indices. -/
theorem mergeSort_enum_pairwise (preds : List ℚ) :
    ((preds.enum).mergeSort probDescLE).Pairwise
      fun a b => b.2 ≤ a.2 ∧ (a.2 = b.2 → a.1 < b.1) := by
  have hnodup : ((preds.enum).mergeSort probDescLE).Nodup :=
    (List.mergeSort_perm (preds.enum) probDescLE).nodup_iff.mpr (enum_nodup preds)
  have h1 : ((preds.enum).mergeSort probDescLE).Pairwise fun a b => b.2 ≤ a.2 := by
    have hs := List.sorted_mergeSort probDescLE_trans probDescLE_total (preds.enum)
    exact hs.imp fun hab => of_decide_eq_true hab
  have h2 : ((preds.enum).mergeSort probDescLE).Pairwise
      fun a b => a.2 = b.2 → a.1 < b.1 := by
    rw [List.pairwise_iff_forall_sublist]
    intro a b hsub heq
    have hne : a ≠ b := by
      intro hab
      subst hab
      have hdup : ([a, a] : List (Nat × ℚ)).Nodup := hsub.nodup hnodup
      simp at hdup
    have ha : a ∈ preds.enum := List.mem_mergeSort.mp (hsub.subset (by simp))
    have hb : b ∈ preds.enum := List.mem_mergeSort.mp (hsub.subset (by simp))
    have hij : a.1 ≠ b.1 := by
      intro hfst
      rcases rel_or_rel_of_pairwise
          (by rw [List.enum_eq_enumFrom]; exact enumFrom_pairwise_fst_lt preds 0)
          ha hb hne with hlt | hlt
      · rw [hfst] at hlt
        exact lt_irrefl _ hlt
      · rw [hfst] at hlt
        exact lt_irrefl _ hlt
    rcases Nat.lt_or_ge a.1 b.1 with hlt | hge
    · exact hlt
    · exfalso
      have hblt : b.1 < a.1 := lt_of_le_of_ne hge (Ne.symm hij)
      have hba : List.Sublist [b, a] preds.enum := by
        rw [List.enum_eq_enumFrom] at ha hb ⊢
        exact pair_sublist_enumFrom preds 0 b a hb ha hblt
      have hle : probDescLE b a := by
        simp [probDescLE, heq]
      have hba' : List.Sublist [b, a] ((preds.enum).mergeSort probDescLE) :=
        List.pair_sublist_mergeSort probDescLE_trans probDescLE_total hle hba
      exact hne (sublist_pair_antisymm hnodup hsub hba')
  exact h1.and h2

/-- Claim C4: on the success path, `get_top_k_predictions` returns exactly
`min k num_classes` entries (with `num_classes` the length of the probability
vector), in weakly-descending probability order, ties broken by ascending
class index — the insertion order of the probability map built by
`enumerate`, as guaranteed by the stability of Python's `sorted`. -/
theorem claim_C4_top_k_sorted (preds : List ℚ) (k : Nat) (_hk : 1 ≤ k) :
    (get_top_k_predictions preds k).length = min k preds.length ∧
    (get_top_k_predictions preds k).Pairwise
      fun a b => b.2 ≤ a.2 ∧ (a.2 = b.2 → a.1 < b.1) := by
  constructor
  · simp [get_top_k_predictions, ImageClassifier.predict]
  · exact List.Pairwise.sublist
      (List.take_sublist k ((preds.enum).mergeSort probDescLE))
      (mergeSort_enum_pairwise preds)

/-- Witness for C4 at a concrete probability vector with a tie and `k = 2`. -/
theorem claim_C4_witness :
    1 ≤ 2 ∧
    ((get_top_k_predictions [(1 : ℚ)/2, 1/2, 1/4] 2).length
        = min 2 ([(1 : ℚ)/2, 1/2, 1/4] : List ℚ).length ∧
      (get_top_k_predictions [(1 : ℚ)/2, 1/2, 1/4] 2).Pairwise
        fun a b => b.2 ≤ a.2 ∧ (a.2 = b.2 → a.1 < b.1)) :=
  ⟨by decide, claim_C4_top_k_sorted [(1 : ℚ)/2, 1/2, 1/4] 2 (by decide)⟩

/-- For contrast with the failing `.keras` input of C7: on an `'.h5'` path the
sidecar lands next to the artifact and the three metadata fields round-trip
onto a fresh classifier. -/
theorem save_load_h5_roundtrip_example :
    ImageClassifier.load_model
        { img_size := (224, 224), num_classes := 2, learning_rate := 2 }
        (ImageClassifier.save_model
          { img_size := (128, 128), num_classes := 3, learning_rate := 7 }
          [] "model.h5") "model.h5"
      = Except.ok { img_size := (128, 128), num_classes := 3, learning_rate := 7 } := by
  decide

end MLOps
